import Mathlib

/-!
Shallow embedding of the backend sidecar supervisor implemented in
`src/src-tauri/src/main.rs`, together with theorems settling the spec's
claims about it.

Modelling conventions:
* Filesystem paths are `String`s; `PathBuf::join` becomes `pjoin` with the
  platform separator; `PathBuf::parent` becomes `parentPath`.
* The process environment (`std::env::var`) is a function
  `String → Option String` (`none` models `Err(VarError)`).
* The filesystem existence check (`Path::exists`) is a predicate
  `String → Bool`.
* `fs::read_to_string` on polling attempt `i` is `reads i : Option String`
  (`none` models a read error, including "file does not exist").
* `serde_json::from_str::<Handshake>` is external library code, modelled as
  an abstract `parse : String → Option Handshake` parameter (`none` models
  a parse error).
* The HTTP client is a function `Nat → Option Nat` giving, per attempt, the
  response status code, or `none` for a connection failure / request
  timeout (reqwest's `send()` returning `Err`).
* `tokio::time::sleep` is recorded as a log of slept millisecond durations.
* A spawned OS process (`std::process::Child`) is an opaque handle; the OS
  spawn call is an oracle `LaunchSpec → Except String Child`.
* `child.kill()` / `child.wait()` outcomes are oracles `Child → Bool`; the
  source discards both results (`let _ = ...`), which the model reflects by
  ignoring the booleans in the returned `Except`.
-/

namespace SidecarSupervisor

/-- Target platform, mirroring the `cfg!(target_os = ...)` branching in the
source: `macos`, `windows`, or any other Unix-like (`other`). -/
inductive OS where
  | macos
  | windows
  | other
deriving Repr, DecidableEq

/-- Platform path separator (`/` on Unix-likes, `\` on Windows). -/
def sepFor : OS → String
  | .windows => "\\"
  | _ => "/"

/-- Model of `PathBuf::join`: append one component behind a separator. -/
def pjoin (sep a b : String) : String := a ++ sep ++ b

/-- Model of `PathBuf::parent`: drop the final path component, `none` when
there is no parent. -/
def parentPath (sep p : String) : Option String :=
  let comps := p.splitOn sep
  if comps.length ≤ 1 then none
  else some (String.intercalate sep comps.dropLast)

/-- Helper for `split_whitespace`: scan the characters, `acc` holding the
current token reversed; a whitespace character closes the pending token
(dropped when empty, as Rust does for leading/repeated whitespace). -/
def splitWsAux : List Char → List Char → List String
  | [], acc => if acc.isEmpty then [] else [String.mk acc.reverse]
  | c :: cs, acc =>
    if c.isWhitespace then
      (if acc.isEmpty then [] else [String.mk acc.reverse]) ++ splitWsAux cs []
    else splitWsAux cs (c :: acc)

/-- Model of Rust `str::split_whitespace`: the maximal runs of
non-whitespace characters, in order. -/
def split_whitespace (s : String) : List String := splitWsAux s.data []

/-- Does `pat` occur at the head of `cs`? (Helper for `strContains`.) -/
def leadsWith : List Char → List Char → Bool
  | [], _ => true
  | _ :: _, [] => false
  | p :: ps, c :: cs => p == c && leadsWith ps cs

/-- Does `pat` occur anywhere in `cs`? (Helper for `strContains`.) -/
def hasSub (pat : List Char) : List Char → Bool
  | [] => leadsWith pat []
  | c :: cs => leadsWith pat (c :: cs) || hasSub pat cs

/-- Substring containment, modelling Rust `str::contains`. -/
def strContains (s pat : String) : Bool := hasSub pat.data s.data

/-- The handshake record `struct Handshake { port: u16 }` (main.rs:19-22).
`port` is a `u16`; no arithmetic is performed on it, so it is carried as a
`Nat`. -/
structure Handshake where
  port : Nat
deriving Repr, DecidableEq

/-- Opaque handle to a spawned child process (`std::process::Child`). -/
structure Child where
  pid : Nat
deriving Repr, DecidableEq

/-- The error outcomes the boot flow can produce (the source uses `anyhow`
messages; each distinct message site becomes one constructor, carrying the
data interpolated into the message). -/
inductive BootError where
  /-- "No backend binary found. Tried: {candidates:?}" (main.rs:110) -/
  | backendNotFound (candidates : List String)
  /-- "failed to spawn backend process" (main.rs:129) -/
  | spawnFailed (cause : String)
  /-- "Timed out waiting for handshake file at {path:?}" (main.rs:209-212) -/
  | handshakeTimeout (path : String)
  /-- "Timed out waiting for /healthz on {url}" (main.rs:242) -/
  | healthCheckTimeout (url : String)
  /-- "Main window missing" (main.rs:97) -/
  | mainWindowMissing
  /-- "failed to load LiveView into WebView" (main.rs:94) -/
  | evalFailed
deriving Repr, DecidableEq

/-- `candidate_backend_paths` (main.rs:132-167): the ordered candidate list
for the backend executable, given the environment and the optional
bundled-resource directory. -/
def candidate_backend_paths (os : OS) (envv : String → Option String)
    (resource_dir : Option String) : List String :=
  let sep := sepFor os
  let envPaths :=
    match envv "HUDSON_BACKEND_BIN" with
    | some env_path => if env_path.trim.isEmpty then [] else [env_path]
    | none => []
  let resPaths :=
    match resource_dir with
    | some dir =>
      let macosPaths :=
        match parentPath sep dir with
        | some p =>
          let macos_dir := pjoin sep p "MacOS"
          [pjoin sep macos_dir "hudson_macos_arm-aarch64-apple-darwin",
           pjoin sep macos_dir "hudson_macos_arm",
           pjoin sep macos_dir "hudson_backend"]
        | none => []
      let binDir := pjoin sep dir "binaries"
      macosPaths ++
        [pjoin sep binDir "hudson_macos_arm-aarch64-apple-darwin",
         pjoin sep binDir "hudson_macos_arm",
         pjoin sep binDir "hudson_backend",
         pjoin sep dir "hudson_macos_arm-aarch64-apple-darwin",
         pjoin sep dir "hudson_macos_arm",
         pjoin sep dir "hudson_backend"]
    | none => []
  let devPaths :=
    if os = .windows then
      ["..\\burrito_out\\hudson_windows.exe",
       "..\\_build\\prod\\rel\\hudson\\bin\\hudson.bat"]
    else
      ["../burrito_out/hudson_macos_arm",
       "../burrito_out/hudson_macos_intel",
       "../_build/prod/rel/hudson/bin/hudson"]
  envPaths ++ resPaths ++ devPaths

/-- The path-resolution step of `spawn_backend` (main.rs:106-110):
`candidates.iter().find(|path| path.exists()).cloned().ok_or_else(...)`. -/
def resolve_backend (fsExists : String → Bool) (candidates : List String) :
    Except BootError String :=
  match candidates.find? fsExists with
  | some p => .ok p
  | none => .error (.backendNotFound candidates)

/-- `default_args_for` (main.rs:169-176): burrito builds get no arguments,
everything else gets a single "foreground". The source tests
`executable.to_string_lossy().contains("burrito_out")` on the rendered
path string. -/
def default_args_for (executable : String) : List String :=
  if strContains executable "burrito_out" then [] else ["foreground"]

/-- What `spawn_backend` configures on the `Command` before spawning
(main.rs:112-127): resolved executable, argument list, and the storage-mode
environment variable. (`stdout` is always piped and `stderr` always
inherited; both are constants in the source and carry no information.) -/
structure LaunchSpec where
  executable : String
  args : List String
  enable_neon : String
deriving Repr, DecidableEq

/-- The pure part of `spawn_backend` (main.rs:103-127): resolve the
executable among the candidates, compute the argument list (environment
override wholesale, else `default_args_for`), and the `HUDSON_ENABLE_NEON`
overlay (explicit value passed through, else "false"). -/
def build_launch_spec (os : OS) (envv : String → Option String)
    (fsExists : String → Bool) (resource_dir : Option String) :
    Except BootError LaunchSpec :=
  match resolve_backend fsExists (candidate_backend_paths os envv resource_dir) with
  | .error e => .error e
  | .ok executable =>
    let args :=
      match envv "HUDSON_BACKEND_ARGS" with
      | some value => split_whitespace value
      | none => default_args_for executable
    let enable_neon := (envv "HUDSON_ENABLE_NEON").getD "false"
    .ok ⟨executable, args, enable_neon⟩

/-- `spawn_backend` (main.rs:103-130): build the launch spec, then ask the OS
to create the process; an OS refusal becomes `spawnFailed` via the
"failed to spawn backend process" context. -/
def spawn_backend (os : OS) (envv : String → Option String)
    (fsExists : String → Bool) (resource_dir : Option String)
    (spawnProc : LaunchSpec → Except String Child) : Except BootError Child :=
  match build_launch_spec os envv fsExists resource_dir with
  | .error e => .error e
  | .ok spec =>
    match spawnProc spec with
    | .ok child => .ok child
    | .error cause => .error (.spawnFailed cause)

/-- `handshake_path` (main.rs:215-225): `/tmp/hudson_port.json` on macOS,
`%APPDATA%\Hudson\port.json` (falling back to the temp dir) on Windows, and
`<tempdir>/hudson_port.json` elsewhere. -/
def handshake_path (os : OS) (envv : String → Option String)
    (tempDir : String) : String :=
  match os with
  | .macos => "/tmp/hudson_port.json"
  | .windows =>
    let base := (envv "APPDATA").getD tempDir
    pjoin "\\" (pjoin "\\" base "Hudson") "port.json"
  | .other => pjoin "/" tempDir "hudson_port.json"

instance instDecEqExcept {ε α : Type} [DecidableEq ε] [DecidableEq α] :
    DecidableEq (Except ε α) := fun a b =>
  match a, b with
  | .error e, .error f => decidable_of_iff (e = f) (by simp)
  | .error _, .ok _ => isFalse (by simp)
  | .ok _, .error _ => isFalse (by simp)
  | .ok a, .ok b => decidable_of_iff (a = b) (by simp)

/-- Result of one bounded polling loop: the outcome, the number of poll
attempts actually performed, and the log of `sleep` durations (ms). -/
structure PollResult (α : Type) where
  result : Except BootError α
  attempts : Nat
  sleeps : List Nat
deriving Repr, DecidableEq

/-- The shared shape of both retry loops in the source
(`for _ in 0..N { if ready { return Ok } ; sleep(delay) }` then `Err`):
`attempt i` is the readiness check of iteration `i`; a failed iteration
sleeps `delayMs` (including the final one, as in the source) and recursion
continues with the remaining fuel. -/
def pollLoop {α : Type} (attempt : Nat → Option α) (delayMs : Nat)
    (onTimeout : BootError) : Nat → Nat → PollResult α
  | 0, _ => ⟨.error onTimeout, 0, []⟩
  | n + 1, i =>
    match attempt i with
    | some a => ⟨.ok a, 1, []⟩
    | none =>
      let r := pollLoop attempt delayMs onTimeout n (i + 1)
      ⟨r.result, r.attempts + 1, delayMs :: r.sleeps⟩

/-- One handshake polling attempt (main.rs:201-205): the nested
`if let Ok(contents) = fs::read_to_string` / `if let Ok(handshake) =
serde_json::from_str` — a read failure and a parse failure both yield
`none` (retry). -/
def hs_attempt (reads : Nat → Option String)
    (parse : String → Option Handshake) (i : Nat) : Option Nat :=
  (reads i).bind fun contents => (parse contents).map Handshake.port

/-- `wait_for_port_file` (main.rs:198-213): 50 attempts, 200 ms apart, over
the platform handshake path; exhaustion yields `handshakeTimeout path`. -/
def wait_for_port_file (os : OS) (envv : String → Option String)
    (tempDir : String) (reads : Nat → Option String)
    (parse : String → Option Handshake) : PollResult Nat :=
  let path := handshake_path os envv tempDir
  pollLoop (hs_attempt reads parse) 200 (.handshakeTimeout path) 50 0

/-- `StatusCode::is_success`: the 2xx range. -/
def status_is_success (s : Nat) : Bool := 200 ≤ s && s < 300

/-- The probed URL `http://127.0.0.1:{port}/healthz` (main.rs:228). -/
def health_url (port : Nat) : String :=
  "http://127.0.0.1:" ++ toString port ++ "/healthz"

/-- One health polling attempt (main.rs:234-238): ready exactly when the
request came back (`Ok` from `send()`, i.e. no connection failure and no
per-request timeout) with a 2xx status. -/
def health_attempt (responses : Nat → Option Nat) (i : Nat) : Option Unit :=
  match responses i with
  | some status => if status_is_success status then some () else none
  | none => none

/-- `wait_for_health` (main.rs:227-243): 40 attempts, 250 ms apart;
exhaustion yields `healthCheckTimeout url`. -/
def wait_for_health (port : Nat) (responses : Nat → Option Nat) :
    PollResult Unit :=
  pollLoop (health_attempt responses) 250 (.healthCheckTimeout (health_url port)) 40 0

/-- Per-child effects of `terminate_backend`: the `child.kill()` and
`child.wait()` calls, each tagged with the OS outcome the corresponding
oracle reported (the source discards it). -/
inductive TermEffect where
  | killed (child : Child) (ok : Bool)
  | waited (child : Child) (ok : Bool)
deriving Repr, DecidableEq

/-- `terminate_backend` (main.rs:245-253): take the handle out of the slot
(under the lock); if one was present, kill and wait, discarding both
results; always return `Ok(())`. The triple is
(returned result, slot afterwards, kill/wait effects performed). -/
def terminate_backend (killOk waitOk : Child → Bool) (slot : Option Child) :
    Except String Unit × Option Child × List TermEffect :=
  match slot with
  | some child =>
    (.ok (), none, [.killed child (killOk child), .waited child (waitOk child)])
  | none => (.ok (), none, [])

/-- The external world a boot attempt runs against. -/
structure BootEnv where
  os : OS
  envv : String → Option String
  tempDir : String
  resource_dir : Option String
  fsExists : String → Bool
  spawnProc : LaunchSpec → Except String Child
  reads : Nat → Option String
  parse : String → Option Handshake
  health : Nat → Option Nat
  windowPresent : Bool
  evalOk : Bool

/-- The URL the main window is told to load once the backend is healthy:
the `window.eval("window.location.replace(...)")` call at main.rs:90-94
navigates to this address. -/
def nav_url (port : Nat) : String := "http://127.0.0.1:" ++ toString port

/-- Observable outcome of one run of `boot_sequence`: its returned
`Result`, the supervisor slot afterwards, and the URL the main window was
instructed to navigate to (if the instruction was issued). -/
structure BootOutcome where
  result : Except BootError Unit
  slot : Option Child
  navigated : Option String
deriving Repr, DecidableEq

/-- `boot_sequence` (main.rs:70-101): spawn, wait for the handshake port,
wait for health, store the child into the slot, then look up the main
window and navigate it; each `?` propagates the error and returns with the
slot as it was. -/
def boot_sequence (E : BootEnv) (slot : Option Child) : BootOutcome :=
  match spawn_backend E.os E.envv E.fsExists E.resource_dir E.spawnProc with
  | .error e => ⟨.error e, slot, none⟩
  | .ok child =>
    match (wait_for_port_file E.os E.envv E.tempDir E.reads E.parse).result with
    | .error e => ⟨.error e, slot, none⟩
    | .ok port =>
      match (wait_for_health port E.health).result with
      | .error e => ⟨.error e, slot, none⟩
      | .ok _ =>
        let slotAfter := some child
        if E.windowPresent then
          if E.evalOk then ⟨.ok (), slotAfter, some (nav_url port)⟩
          else ⟨.error .evalFailed, slotAfter, some (nav_url port)⟩
        else ⟨.error .mainWindowMissing, slotAfter, none⟩

/-! ## Helper lemmas about the polling loop -/

/-- A polling loop all of whose `n` attempts (from start index `i`) fail
runs to exhaustion: timeout result, `n` attempts, `n` sleeps of the
configured delay. -/
theorem pollLoop_all_fail {α : Type} (attempt : Nat → Option α) (d : Nat)
    (e : BootError) :
    ∀ (n i : Nat), (∀ j, j < n → attempt (i + j) = none) →
      pollLoop attempt d e n i = ⟨.error e, n, List.replicate n d⟩ := by
  intro n
  induction n with
  | zero => intro i _; rfl
  | succ n ih =>
    intro i h
    have h0 : attempt i = none := by simpa using h 0 (Nat.succ_pos n)
    have hrest : ∀ j, j < n → attempt (i + 1 + j) = none := by
      intro j hj
      have hh := h (j + 1) (Nat.succ_lt_succ hj)
      rwa [show i + (j + 1) = i + 1 + j by omega] at hh
    simp [pollLoop, h0, ih (i + 1) hrest, List.replicate_succ]

/-- A polling loop whose first success is attempt `k` (counting from start
index `i`, with `k` within the fuel) stops right there: success result,
`k + 1` attempts, `k` sleeps of the configured delay. -/
theorem pollLoop_first_success {α : Type} (attempt : Nat → Option α) (d : Nat)
    (e : BootError) :
    ∀ (n i k : Nat) (a : α), k < n →
      (∀ j, j < k → attempt (i + j) = none) → attempt (i + k) = some a →
      pollLoop attempt d e n i = ⟨.ok a, k + 1, List.replicate k d⟩ := by
  intro n
  induction n with
  | zero => intro i k a hk; exact absurd hk (Nat.not_lt_zero k)
  | succ n ih =>
    intro i k a hk hfail hsucc
    cases k with
    | zero =>
      have h0 : attempt i = some a := by simpa using hsucc
      simp [pollLoop, h0]
    | succ k =>
      have h0 : attempt i = none := by simpa using hfail 0 (Nat.succ_pos k)
      have hfail' : ∀ j, j < k → attempt (i + 1 + j) = none := by
        intro j hj
        have hh := hfail (j + 1) (Nat.succ_lt_succ hj)
        rwa [show i + (j + 1) = i + 1 + j by omega] at hh
      have hsucc' : attempt (i + 1 + k) = some a := by
        rwa [show i + (k + 1) = i + 1 + k by omega] at hsucc
      simp [pollLoop, h0, ih (i + 1) k a (Nat.lt_of_succ_lt_succ hk) hfail' hsucc',
        List.replicate_succ]

/-! ## Claims -/

/-- C1: `terminate_backend` takes the handle out of the Supervisor State
slot (leaving it empty); when a handle was present it kills the child and
waits for its exit; when the slot was empty it does nothing; it returns
success in every case, whatever the kill/wait outcomes, so after any prior
publish or none, the second of two consecutive terminate calls performs no
effect and neither call returns an error. -/
theorem terminate_backend_idempotent (k1 w1 k2 w2 : Child → Bool)
    (slot : Option Child) :
    (terminate_backend k1 w1 slot).1 = .ok () ∧
    (terminate_backend k1 w1 slot).2.1 = none ∧
    (∀ c, slot = some c →
      (terminate_backend k1 w1 slot).2.2 =
        [.killed c (k1 c), .waited c (w1 c)]) ∧
    (slot = none → (terminate_backend k1 w1 slot).2.2 = []) ∧
    terminate_backend k2 w2 (terminate_backend k1 w1 slot).2.1 =
      (.ok (), none, []) := by
  cases slot <;> simp [terminate_backend]

/-- C1 witness: a published handle whose kill and wait both fail is still
taken out and the follow-up terminate is an effect-free success. -/
theorem terminate_backend_idempotent_witness :
    (terminate_backend (fun _ => false) (fun _ => false) (some ⟨7⟩)).2.2 =
      [.killed ⟨7⟩ false, .waited ⟨7⟩ false] ∧
    terminate_backend (fun _ => false) (fun _ => false)
        (terminate_backend (fun _ => false) (fun _ => false) (some ⟨7⟩)).2.1 =
      (.ok (), none, []) :=
  ⟨(terminate_backend_idempotent (fun _ => false) (fun _ => false)
      (fun _ => false) (fun _ => false) (some ⟨7⟩)).2.2.1 ⟨7⟩ rfl,
   (terminate_backend_idempotent (fun _ => false) (fun _ => false)
      (fun _ => false) (fun _ => false) (some ⟨7⟩)).2.2.2.2⟩

/-- C2: the Handshake Reader polls at most 50 times, 200 ms apart; the
first attempt whose read and parse both succeed returns that port
immediately (read failures and parse failures are both not-ready), and 50
failed attempts yield a timeout error carrying the handshake file path. -/
theorem wait_for_port_file_spec (os : OS) (envv : String → Option String)
    (tempDir : String) (reads : Nat → Option String)
    (parse : String → Option Handshake) :
    (∀ k port, k < 50 → (∀ j, j < k → hs_attempt reads parse j = none) →
      hs_attempt reads parse k = some port →
      wait_for_port_file os envv tempDir reads parse =
        ⟨.ok port, k + 1, List.replicate k 200⟩) ∧
    ((∀ j, j < 50 → hs_attempt reads parse j = none) →
      wait_for_port_file os envv tempDir reads parse =
        ⟨.error (.handshakeTimeout (handshake_path os envv tempDir)), 50,
          List.replicate 50 200⟩) := by
  constructor
  · intro k port hk hfail hsucc
    exact pollLoop_first_success _ _ _ 50 0 k port hk
      (by simpa using hfail) (by simpa using hsucc)
  · intro hfail
    exact pollLoop_all_fail _ _ _ 50 0 (by simpa using hfail)

/-- C2 witness: a handshake file that becomes readable and parseable on the
11th attempt (index 10) yields its port after exactly 11 polls and 10
sleeps of 200 ms. -/
theorem wait_for_port_file_spec_witness :
    wait_for_port_file .macos (fun _ => none) "/tmp"
        (fun i => if 10 ≤ i then some "ready" else none)
        (fun s => if s = "ready" then some ⟨4000⟩ else none) =
      ⟨.ok 4000, 11, List.replicate 10 200⟩ :=
  (wait_for_port_file_spec .macos (fun _ => none) "/tmp"
      (fun i => if 10 ≤ i then some "ready" else none)
      (fun s => if s = "ready" then some ⟨4000⟩ else none)).1 10 4000
    (by decide) (by decide) (by decide)

/-- C3: the Health Prober polls at most 40 times, 250 ms apart; the first
attempt that comes back with a 2xx status ends the loop right there (no
further polls), while connection failures, per-request timeouts and
non-success statuses are all retried; 40 failed attempts yield a timeout
error carrying the probed URL. -/
theorem wait_for_health_spec (port : Nat) (responses : Nat → Option Nat) :
    (∀ k, k < 40 → (∀ j, j < k → health_attempt responses j = none) →
      health_attempt responses k = some () →
      wait_for_health port responses =
        ⟨.ok (), k + 1, List.replicate k 250⟩) ∧
    ((∀ j, j < 40 → health_attempt responses j = none) →
      wait_for_health port responses =
        ⟨.error (.healthCheckTimeout (health_url port)), 40,
          List.replicate 40 250⟩) := by
  constructor
  · intro k hk hfail hsucc
    exact pollLoop_first_success _ _ _ 40 0 k () hk
      (by simpa using hfail) (by simpa using hsucc)
  · intro hfail
    exact pollLoop_all_fail _ _ _ 40 0 (by simpa using hfail)

/-- C3 witness: an endpoint answering 503 on the first five polls and 200 on
the sixth succeeds after exactly 6 polls and 5 sleeps of 250 ms. -/
theorem wait_for_health_spec_witness :
    wait_for_health 4000 (fun i => if 5 ≤ i then some 200 else some 503) =
      ⟨.ok (), 6, List.replicate 5 250⟩ :=
  (wait_for_health_spec 4000
      (fun i => if 5 ≤ i then some 200 else some 503)).1 5
    (by decide) (by decide) (by decide)

/-- Helper for C4: `List.find?` returns the element at the first index
satisfying the predicate. -/
theorem find_eq_get_of_first {p : String → Bool} :
    ∀ (l : List String) (n : Nat) (hn : n < l.length),
      (∀ m (hm : m < n), p (l.get ⟨m, Nat.lt_trans hm hn⟩) = false) →
      p (l.get ⟨n, hn⟩) = true →
      l.find? p = some (l.get ⟨n, hn⟩) := by
  intro l
  induction l with
  | nil => intro n hn; exact absurd hn (Nat.not_lt_zero n)
  | cons x xs ih =>
    intro n hn hprev hhit
    cases n with
    | zero =>
      simp only [List.get] at hhit
      simp [List.find?, hhit]
    | succ n =>
      have h0 : p x = false := hprev 0 (Nat.succ_pos n)
      have hn' : n < xs.length := Nat.lt_of_succ_lt_succ hn
      have hprev' : ∀ m (hm : m < n), p (xs.get ⟨m, Nat.lt_trans hm hn'⟩) = false := by
        intro m hm
        exact hprev (m + 1) (Nat.succ_lt_succ hm)
      simp only [List.get] at hhit
      simp [List.find?, h0, ih n hn' hprev' hhit]

/-- C4: when the `n`-th candidate is the first whose filesystem entry
exists, the resolver picks exactly that candidate — entries at later
(lower-priority) positions existing or not makes no difference. -/
theorem resolve_backend_first_existing (fsExists : String → Bool)
    (candidates : List String) (n : Nat) (hn : n < candidates.length)
    (hprev : ∀ m (hm : m < n),
      fsExists (candidates.get ⟨m, Nat.lt_trans hm hn⟩) = false)
    (hhit : fsExists (candidates.get ⟨n, hn⟩) = true) :
    resolve_backend fsExists candidates = .ok (candidates.get ⟨n, hn⟩) := by
  unfold resolve_backend
  rw [find_eq_get_of_first candidates n hn hprev hhit]

/-- C4 witness: in a three-candidate list where the second and third exist,
the second (the first existing one) is resolved. -/
theorem resolve_backend_first_existing_witness :
    resolve_backend (fun s => s == "b" || s == "c") ["a", "b", "c"] = .ok "b" :=
  resolve_backend_first_existing (fun s => s == "b" || s == "c")
    ["a", "b", "c"] 1 (by decide) (by decide) (by decide)

/-- C5: when no candidate's filesystem entry exists, resolution fails with
`backendNotFound` carrying the full attempted candidate list, and the boot
attempt returns that error with the slot untouched and nothing navigated —
independently of the spawn oracle, so nothing is spawned, and with no
retry. -/
theorem backend_not_found_aborts (E : BootEnv) (slot : Option Child)
    (h : ∀ p ∈ candidate_backend_paths E.os E.envv E.resource_dir,
      E.fsExists p = false) :
    resolve_backend E.fsExists (candidate_backend_paths E.os E.envv E.resource_dir) =
      .error (.backendNotFound (candidate_backend_paths E.os E.envv E.resource_dir)) ∧
    boot_sequence E slot =
      ⟨.error (.backendNotFound (candidate_backend_paths E.os E.envv E.resource_dir)),
        slot, none⟩ := by
  have hfind : (candidate_backend_paths E.os E.envv E.resource_dir).find? E.fsExists = none := by
    rw [List.find?_eq_none]
    intro x hx
    simp [h x hx]
  have hres : resolve_backend E.fsExists
      (candidate_backend_paths E.os E.envv E.resource_dir) =
      .error (.backendNotFound (candidate_backend_paths E.os E.envv E.resource_dir)) := by
    unfold resolve_backend
    rw [hfind]
  refine ⟨hres, ?_⟩
  unfold boot_sequence spawn_backend build_launch_spec
  rw [hres]

/-- C5 witness: a macOS environment with no override, no resource directory
and an empty filesystem aborts boot with the full dev-fallback candidate
list in the error. -/
theorem backend_not_found_aborts_witness :
    boot_sequence
        ⟨.macos, fun _ => none, "/tmp", none, fun _ => false,
          fun _ => .ok ⟨1⟩, fun _ => none, fun _ => none, fun _ => none,
          true, true⟩ none =
      ⟨.error (.backendNotFound
        ["../burrito_out/hudson_macos_arm",
         "../burrito_out/hudson_macos_intel",
         "../_build/prod/rel/hudson/bin/hudson"]), none, none⟩ :=
  (backend_not_found_aborts
      ⟨.macos, fun _ => none, "/tmp", none, fun _ => false,
        fun _ => .ok ⟨1⟩, fun _ => none, fun _ => none, fun _ => none,
        true, true⟩ none (by decide)).2

/-- Helper: characterization of a successfully built launch spec — its
executable is the resolved candidate, its arguments follow the
override-else-default policy, and its storage-mode variable is the
explicit value or the "false" default. -/
theorem build_launch_spec_ok (os : OS) (envv : String → Option String)
    (fsExists : String → Bool) (rd : Option String) (spec : LaunchSpec)
    (h : build_launch_spec os envv fsExists rd = .ok spec) :
    resolve_backend fsExists (candidate_backend_paths os envv rd) =
      .ok spec.executable ∧
    spec.args = (match envv "HUDSON_BACKEND_ARGS" with
      | some value => split_whitespace value
      | none => default_args_for spec.executable) ∧
    spec.enable_neon = (envv "HUDSON_ENABLE_NEON").getD "false" := by
  unfold build_launch_spec at h
  cases hres : resolve_backend fsExists (candidate_backend_paths os envv rd) with
  | error e => rw [hres] at h; cases h
  | ok ex =>
    rw [hres] at h
    simp only [Except.ok.injEq] at h
    subst h
    exact ⟨rfl, rfl, rfl⟩

/-- C8: the launcher always sets the storage-mode variable on the child —
the override's value is passed through unchanged when present, and the
offline default "false" is used when it is unset. -/
theorem storage_mode_overlay (os : OS) (envv : String → Option String)
    (fsExists : String → Bool) (rd : Option String) (spec : LaunchSpec)
    (h : build_launch_spec os envv fsExists rd = .ok spec) :
    spec.enable_neon = (envv "HUDSON_ENABLE_NEON").getD "false" ∧
    (∀ v, envv "HUDSON_ENABLE_NEON" = some v → spec.enable_neon = v) ∧
    (envv "HUDSON_ENABLE_NEON" = none → spec.enable_neon = "false") := by
  have hchar := build_launch_spec_ok os envv fsExists rd spec h
  refine ⟨hchar.2.2, ?_, ?_⟩
  · intro v hv; rw [hchar.2.2, hv]; rfl
  · intro hnone; rw [hchar.2.2, hnone]; rfl

/-- C8 witness: with the override unset and the first dev-fallback binary
present, the built launch spec selects the offline storage mode. -/
theorem storage_mode_overlay_witness :
    (⟨"../burrito_out/hudson_macos_arm", [], "false"⟩ : LaunchSpec).enable_neon =
      "false" :=
  (storage_mode_overlay .macos (fun _ => none) (fun _ => true) none
      ⟨"../burrito_out/hudson_macos_arm", [], "false"⟩ (by decide)).2.2 rfl

/-- C9: a resolved burrito (self-contained native) executable is launched
with no extra arguments, any other resolved executable with the single
argument "foreground", and a set argument-override variable replaces the
computed list wholesale with its whitespace-split tokens. -/
theorem launch_args_policy (os : OS) (envv : String → Option String)
    (fsExists : String → Bool) (rd : Option String) (spec : LaunchSpec)
    (h : build_launch_spec os envv fsExists rd = .ok spec) :
    (∀ s, envv "HUDSON_BACKEND_ARGS" = some s →
      spec.args = split_whitespace s) ∧
    (envv "HUDSON_BACKEND_ARGS" = none →
      (strContains spec.executable "burrito_out" = true → spec.args = []) ∧
      (strContains spec.executable "burrito_out" = false →
        spec.args = ["foreground"])) := by
  have hchar := build_launch_spec_ok os envv fsExists rd spec h
  constructor
  · intro s hs
    rw [hchar.2.1, hs]
  · intro hnone
    rw [hchar.2.1, hnone]
    constructor <;> intro hb <;> simp [default_args_for, hb]

/-- C9 witness: a set override "start --flag" replaces the argument list
with its whitespace-split tokens. -/
theorem launch_args_policy_witness :
    (⟨"../burrito_out/hudson_macos_arm", ["start", "--flag"], "false"⟩ :
      LaunchSpec).args = ["start", "--flag"] :=
  (launch_args_policy .macos
      (fun v => if v = "HUDSON_BACKEND_ARGS" then some "start --flag" else none)
      (fun _ => true) none
      ⟨"../burrito_out/hudson_macos_arm", ["start", "--flag"], "false"⟩
      (by decide)).1 "start --flag" (by decide)

/-- C6: once the health check has succeeded, the boot sequence publishes the
child handle into the Supervisor State slot and, when the main window is
available, instructs it to navigate to `http://127.0.0.1:<port>`; when the
main window is unavailable at that moment the boot attempt ends in the
fatal main-window-missing failure (the spec's `PresentationMissing`). -/
theorem boot_ready_publishes_and_navigates (E : BootEnv) (slot : Option Child)
    (child : Child) (port : Nat)
    (hspawn : spawn_backend E.os E.envv E.fsExists E.resource_dir E.spawnProc =
      .ok child)
    (hhs : (wait_for_port_file E.os E.envv E.tempDir E.reads E.parse).result =
      .ok port)
    (hhealth : (wait_for_health port E.health).result = .ok ()) :
    (boot_sequence E slot).slot = some child ∧
    (E.windowPresent = true →
      (boot_sequence E slot).navigated = some (nav_url port)) ∧
    (E.windowPresent = false →
      (boot_sequence E slot).result = .error .mainWindowMissing ∧
      (boot_sequence E slot).navigated = none) := by
  unfold boot_sequence
  simp only [hspawn, hhs, hhealth]
  cases hw : E.windowPresent
  · simp
  · cases he : E.evalOk <;> simp

/-- C6 witness: a fully successful boot with the main window present
publishes the handle and navigates to the backend's local URL. -/
theorem boot_ready_publishes_and_navigates_witness :
    (boot_sequence
        ⟨.macos, fun _ => none, "/tmp", none, fun _ => true, fun _ => .ok ⟨1⟩,
          fun _ => some "p", fun _ => some ⟨4000⟩, fun _ => some 200,
          true, true⟩ none).slot = some ⟨1⟩ ∧
    (boot_sequence
        ⟨.macos, fun _ => none, "/tmp", none, fun _ => true, fun _ => .ok ⟨1⟩,
          fun _ => some "p", fun _ => some ⟨4000⟩, fun _ => some 200,
          true, true⟩ none).navigated = some (nav_url 4000) :=
  ⟨(boot_ready_publishes_and_navigates
      ⟨.macos, fun _ => none, "/tmp", none, fun _ => true, fun _ => .ok ⟨1⟩,
        fun _ => some "p", fun _ => some ⟨4000⟩, fun _ => some 200,
        true, true⟩ none ⟨1⟩ 4000 rfl rfl rfl).1,
   (boot_ready_publishes_and_navigates
      ⟨.macos, fun _ => none, "/tmp", none, fun _ => true, fun _ => .ok ⟨1⟩,
        fun _ => some "p", fun _ => some ⟨4000⟩, fun _ => some 200,
        true, true⟩ none ⟨1⟩ 4000 rfl rfl rfl).2.1 rfl⟩

/-- C7: when boot fails after a successful spawn but before Ready (the
handshake or the health wait returns an error), the slot stays empty, no
navigation is instructed, the boot result is that error, and a subsequent
terminate on the resulting slot is an effect-free success — the freshly
spawned child is never published and never killed by the supervisor. -/
theorem boot_failure_before_ready_leaves_slot_empty (E : BootEnv)
    (child : Child)
    (hspawn : spawn_backend E.os E.envv E.fsExists E.resource_dir E.spawnProc =
      .ok child)
    (hfail :
      (∃ e, (wait_for_port_file E.os E.envv E.tempDir E.reads E.parse).result =
        .error e) ∨
      (∃ port,
        (wait_for_port_file E.os E.envv E.tempDir E.reads E.parse).result =
          .ok port ∧
        ∃ e, (wait_for_health port E.health).result = .error e)) :
    (boot_sequence E none).slot = none ∧
    (boot_sequence E none).navigated = none ∧
    (∃ e, (boot_sequence E none).result = .error e) ∧
    (∀ k w, terminate_backend k w (boot_sequence E none).slot =
      (.ok (), none, [])) := by
  have hmain : (boot_sequence E none).slot = none ∧
      (boot_sequence E none).navigated = none ∧
      ∃ e, (boot_sequence E none).result = .error e := by
    rcases hfail with ⟨e, he⟩ | ⟨port, hp, e, he⟩
    · have hb : boot_sequence E none = ⟨.error e, none, none⟩ := by
        unfold boot_sequence
        simp only [hspawn, he]
      rw [hb]
      exact ⟨rfl, rfl, e, rfl⟩
    · have hb : boot_sequence E none = ⟨.error e, none, none⟩ := by
        unfold boot_sequence
        simp only [hspawn, hp, he]
      rw [hb]
      exact ⟨rfl, rfl, e, rfl⟩
  refine ⟨hmain.1, hmain.2.1, hmain.2.2, ?_⟩
  intro k w
  rw [hmain.1]
  rfl

/-- C7 witness: a spawned backend whose handshake file never appears leaves
the slot empty and makes the follow-up terminate an effect-free no-op. -/
theorem boot_failure_before_ready_leaves_slot_empty_witness :
    (boot_sequence
        ⟨.macos, fun _ => none, "/tmp", none, fun _ => true, fun _ => .ok ⟨1⟩,
          fun _ => none, fun _ => none, fun _ => none, true, true⟩ none).slot =
      none ∧
    (∀ k w, terminate_backend k w
        (boot_sequence
          ⟨.macos, fun _ => none, "/tmp", none, fun _ => true, fun _ => .ok ⟨1⟩,
            fun _ => none, fun _ => none, fun _ => none, true, true⟩
          none).slot =
      (.ok (), none, [])) :=
  ⟨(boot_failure_before_ready_leaves_slot_empty
      ⟨.macos, fun _ => none, "/tmp", none, fun _ => true, fun _ => .ok ⟨1⟩,
        fun _ => none, fun _ => none, fun _ => none, true, true⟩ ⟨1⟩ rfl
      (Or.inl ⟨.handshakeTimeout "/tmp/hudson_port.json", rfl⟩)).1,
   (boot_failure_before_ready_leaves_slot_empty
      ⟨.macos, fun _ => none, "/tmp", none, fun _ => true, fun _ => .ok ⟨1⟩,
        fun _ => none, fun _ => none, fun _ => none, true, true⟩ ⟨1⟩ rfl
      (Or.inl ⟨.handshakeTimeout "/tmp/hudson_port.json", rfl⟩)).2.2.2⟩

/-- C10: the child handle is stored into the slot before the window lookup,
so a boot that fails with the main window missing still leaves the handle
published, and a later terminate kills and reaps exactly that child. -/
theorem boot_publishes_before_navigation (E : BootEnv) (slot : Option Child)
    (child : Child) (port : Nat)
    (hspawn : spawn_backend E.os E.envv E.fsExists E.resource_dir E.spawnProc =
      .ok child)
    (hhs : (wait_for_port_file E.os E.envv E.tempDir E.reads E.parse).result =
      .ok port)
    (hhealth : (wait_for_health port E.health).result = .ok ())
    (hwin : E.windowPresent = false) :
    boot_sequence E slot = ⟨.error .mainWindowMissing, some child, none⟩ ∧
    (∀ k w, terminate_backend k w (boot_sequence E slot).slot =
      (.ok (), none, [.killed child (k child), .waited child (w child)])) := by
  have hb : boot_sequence E slot =
      ⟨.error .mainWindowMissing, some child, none⟩ := by
    unfold boot_sequence
    simp only [hspawn, hhs, hhealth, hwin]
    simp
  refine ⟨hb, ?_⟩
  intro k w
  rw [hb]
  rfl

/-- C10 witness: a healthy boot whose main window is gone still publishes
the handle, and terminate then kills and reaps that child. -/
theorem boot_publishes_before_navigation_witness :
    boot_sequence
        ⟨.macos, fun _ => none, "/tmp", none, fun _ => true, fun _ => .ok ⟨1⟩,
          fun _ => some "p", fun _ => some ⟨4000⟩, fun _ => some 200,
          false, true⟩ none =
      ⟨.error .mainWindowMissing, some ⟨1⟩, none⟩ ∧
    terminate_backend (fun _ => true) (fun _ => true)
        (boot_sequence
          ⟨.macos, fun _ => none, "/tmp", none, fun _ => true, fun _ => .ok ⟨1⟩,
            fun _ => some "p", fun _ => some ⟨4000⟩, fun _ => some 200,
            false, true⟩ none).slot =
      (.ok (), none, [.killed ⟨1⟩ true, .waited ⟨1⟩ true]) :=
  ⟨(boot_publishes_before_navigation
      ⟨.macos, fun _ => none, "/tmp", none, fun _ => true, fun _ => .ok ⟨1⟩,
        fun _ => some "p", fun _ => some ⟨4000⟩, fun _ => some 200,
        false, true⟩ none ⟨1⟩ 4000 rfl rfl rfl rfl).1,
   (boot_publishes_before_navigation
      ⟨.macos, fun _ => none, "/tmp", none, fun _ => true, fun _ => .ok ⟨1⟩,
        fun _ => some "p", fun _ => some ⟨4000⟩, fun _ => some 200,
        false, true⟩ none ⟨1⟩ 4000 rfl rfl rfl rfl).2
     (fun _ => true) (fun _ => true)⟩

end SidecarSupervisor
